import Mathlib

/-!
Verification of the acoustic-metrics model and the wavefield renderer of the
sound reflexion / diffraction simulation.

The embedding models JavaScript numbers with the inductive type `JSNum`:
finite values are exact rationals, and the special values `Infinity`,
`-Infinity` and `NaN` are explicit constructors.  The arithmetic, comparison
and `Math.min` / `Math.max` / `%` operations below follow the ECMAScript
semantics for these special values.  Two idealisations are made: finite
arithmetic is exact (no rounding of IEEE doubles) and there is no signed
zero.  None of the properties verified here depend on rounding or on the
sign of zero.
-/

namespace SoundSim

/-- Model of a JavaScript number: an exact rational, `Infinity`, `-Infinity`
or `NaN`. -/
inductive JSNum where
  | fin (q : ℚ)
  | inf
  | ninf
  | nan
deriving DecidableEq

/-- Truncation of a rational toward zero, as used by the JavaScript `%`
remainder. -/
def qtrunc (q : ℚ) : ℤ := if 0 ≤ q then ⌊q⌋ else -⌊-q⌋

/-- JavaScript `<` comparison: any comparison involving `NaN` is false. -/
def jlt : JSNum → JSNum → Bool
  | .nan, _ => false
  | _, .nan => false
  | .fin a, .fin b => decide (a < b)
  | .fin _, .inf => true
  | .fin _, .ninf => false
  | .inf, _ => false
  | .ninf, .inf => true
  | .ninf, .fin _ => true
  | .ninf, .ninf => false

/-- JavaScript `>` comparison. -/
def jgt (a b : JSNum) : Bool := jlt b a

/-- JavaScript addition extended to the special values. -/
def jadd : JSNum → JSNum → JSNum
  | .nan, _ => .nan
  | _, .nan => .nan
  | .fin a, .fin b => .fin (a + b)
  | .fin _, .inf => .inf
  | .fin _, .ninf => .ninf
  | .inf, .fin _ => .inf
  | .inf, .inf => .inf
  | .inf, .ninf => .nan
  | .ninf, .fin _ => .ninf
  | .ninf, .inf => .nan
  | .ninf, .ninf => .ninf

/-- JavaScript subtraction extended to the special values. -/
def jsub : JSNum → JSNum → JSNum
  | .nan, _ => .nan
  | _, .nan => .nan
  | .fin a, .fin b => .fin (a - b)
  | .fin _, .inf => .ninf
  | .fin _, .ninf => .inf
  | .inf, .fin _ => .inf
  | .inf, .inf => .nan
  | .inf, .ninf => .inf
  | .ninf, .fin _ => .ninf
  | .ninf, .inf => .ninf
  | .ninf, .ninf => .nan

/-- JavaScript multiplication extended to the special values
(`0 * Infinity = NaN`). -/
def jmul : JSNum → JSNum → JSNum
  | .nan, _ => .nan
  | _, .nan => .nan
  | .fin a, .fin b => .fin (a * b)
  | .fin a, .inf => if a = 0 then .nan else if 0 < a then .inf else .ninf
  | .inf, .fin a => if a = 0 then .nan else if 0 < a then .inf else .ninf
  | .fin a, .ninf => if a = 0 then .nan else if 0 < a then .ninf else .inf
  | .ninf, .fin a => if a = 0 then .nan else if 0 < a then .ninf else .inf
  | .inf, .inf => .inf
  | .inf, .ninf => .ninf
  | .ninf, .inf => .ninf
  | .ninf, .ninf => .inf

/-- JavaScript division extended to the special values: a nonzero finite
value divided by zero gives a signed infinity, `0 / 0` gives `NaN`, a finite
value divided by an infinity gives zero. -/
def jdiv : JSNum → JSNum → JSNum
  | .nan, _ => .nan
  | _, .nan => .nan
  | .fin a, .fin b =>
      if b = 0 then (if a = 0 then .nan else if 0 < a then .inf else .ninf)
      else .fin (a / b)
  | .fin _, .inf => .fin 0
  | .fin _, .ninf => .fin 0
  | .inf, .fin b => if 0 ≤ b then .inf else .ninf
  | .ninf, .fin b => if 0 ≤ b then .ninf else .inf
  | .inf, .inf => .nan
  | .inf, .ninf => .nan
  | .ninf, .inf => .nan
  | .ninf, .ninf => .nan

/-- JavaScript `%` remainder: truncated division, `x % 0 = NaN`, a finite
dividend with an infinite divisor is returned unchanged, an infinite
dividend gives `NaN`. -/
def jmod : JSNum → JSNum → JSNum
  | .nan, _ => .nan
  | _, .nan => .nan
  | .fin a, .fin b => if b = 0 then .nan else .fin (a - b * (qtrunc (a / b) : ℚ))
  | .fin a, .inf => .fin a
  | .fin a, .ninf => .fin a
  | .inf, _ => .nan
  | .ninf, _ => .nan

/-- JavaScript `Math.min`: `NaN` if either argument is `NaN`. -/
def jmin : JSNum → JSNum → JSNum
  | .nan, _ => .nan
  | _, .nan => .nan
  | .fin a, .fin b => .fin (min a b)
  | .fin a, .inf => .fin a
  | .inf, .fin a => .fin a
  | .fin _, .ninf => .ninf
  | .ninf, .fin _ => .ninf
  | .inf, .inf => .inf
  | .inf, .ninf => .ninf
  | .ninf, .inf => .ninf
  | .ninf, .ninf => .ninf

/-- JavaScript `Math.max`: `NaN` if either argument is `NaN`. -/
def jmax : JSNum → JSNum → JSNum
  | .nan, _ => .nan
  | _, .nan => .nan
  | .fin a, .fin b => .fin (max a b)
  | .fin a, .ninf => .fin a
  | .ninf, .fin a => .fin a
  | .fin _, .inf => .inf
  | .inf, .fin _ => .inf
  | .inf, .inf => .inf
  | .inf, .ninf => .inf
  | .ninf, .inf => .inf
  | .ninf, .ninf => .ninf

/-- Whether a JavaScript number is finite (`Number.isFinite`). -/
def jsFinite : JSNum → Bool
  | .fin _ => true
  | _ => false

/-! ## The acoustic model (`src/utils/physics.ts` and `src/types.ts`) -/

/-- `SimulationParams` from `src/types.ts`: frequency in Hertz, obstacle
size in meters, temperature in Celsius.  The surrounding application only
ever supplies finite numbers here, so the fields are plain rationals. -/
structure SimulationParams where
  frequency : ℚ
  obstacleSize : ℚ
  temperature : ℚ
deriving DecidableEq

/-- The behavior classification from `src/types.ts`
(`'REFLECTING' | 'DIFFRACTING' | 'TRANSITIONAL'`). -/
inductive Behavior where
  | REFLECTING
  | DIFFRACTING
  | TRANSITIONAL
deriving DecidableEq

/-- `AcousticMetrics` from `src/types.ts`. -/
structure AcousticMetrics where
  wavelength : JSNum
  speedOfSound : JSNum
  ratio : JSNum
  behavior : Behavior
deriving DecidableEq

/-- `SPEED_OF_SOUND_DEFAULT` from `src/utils/physics.ts`. -/
def SPEED_OF_SOUND_DEFAULT : ℚ := 343

/-- `calculateSpeedOfSound` from `src/utils/physics.ts`:
`V = 331.4 + 0.6 * Tc`. -/
def calculateSpeedOfSound (tempCelsius : ℚ) : ℚ := 331.4 + 0.6 * tempCelsius

/-- `calculateMetrics` from `src/utils/physics.ts`.  The local variable
`behavior` starts as `'TRANSITIONAL'` and is overwritten by the
`if / else if` chain, which is equivalent to the nested conditional
below. -/
def calculateMetrics (params : SimulationParams) : AcousticMetrics :=
  let speed := calculateSpeedOfSound params.temperature
  let wavelength := jdiv (.fin speed) (.fin params.frequency)
  let ratio := jdiv (.fin params.obstacleSize) wavelength
  let behavior : Behavior :=
    if jgt ratio (.fin 1.0) then .REFLECTING
    else if jlt ratio (.fin 0.5) then .DIFFRACTING
    else .TRANSITIONAL
  { speedOfSound := .fin speed
    wavelength := wavelength
    ratio := ratio
    behavior := behavior }

/-! ## Theorems about the acoustic model -/

/-- C1: `calculateMetrics` classifies by evaluating the predicates in
order — `ratio > 1.0` gives `REFLECTING`, else `ratio < 0.5` gives
`DIFFRACTING`, else `TRANSITIONAL`; a ratio of exactly `1.0` or exactly
`0.5` is `TRANSITIONAL`, and any negative ratio is `DIFFRACTING`. -/
theorem calculateMetrics_classification (p : SimulationParams) :
    ((calculateMetrics p).behavior =
      if jgt (calculateMetrics p).ratio (.fin 1.0) then .REFLECTING
      else if jlt (calculateMetrics p).ratio (.fin 0.5) then .DIFFRACTING
      else .TRANSITIONAL)
    ∧ ((calculateMetrics p).ratio = .fin 1 →
        (calculateMetrics p).behavior = .TRANSITIONAL)
    ∧ ((calculateMetrics p).ratio = .fin (1/2) →
        (calculateMetrics p).behavior = .TRANSITIONAL)
    ∧ (∀ q : ℚ, q < 0 → (calculateMetrics p).ratio = .fin q →
        (calculateMetrics p).behavior = .DIFFRACTING) := by
  refine ⟨rfl, fun h => ?_, fun h => ?_, fun q hq h => ?_⟩
  · show (if jgt (calculateMetrics p).ratio (.fin 1.0) then Behavior.REFLECTING
      else if jlt (calculateMetrics p).ratio (.fin 0.5) then .DIFFRACTING
      else .TRANSITIONAL) = _
    rw [h]
    norm_num [jgt, jlt]
  · show (if jgt (calculateMetrics p).ratio (.fin 1.0) then Behavior.REFLECTING
      else if jlt (calculateMetrics p).ratio (.fin 0.5) then .DIFFRACTING
      else .TRANSITIONAL) = _
    rw [h]
    norm_num [jgt, jlt]
  · show (if jgt (calculateMetrics p).ratio (.fin 1.0) then Behavior.REFLECTING
      else if jlt (calculateMetrics p).ratio (.fin 0.5) then .DIFFRACTING
      else .TRANSITIONAL) = _
    rw [h]
    have hg : jgt (JSNum.fin q) (.fin 1.0) = false := by
      simp only [jgt, jlt, decide_eq_false_iff_not, not_lt]
      norm_num
      linarith
    have hl : jlt (JSNum.fin q) (.fin 0.5) = true := by
      simp only [jlt, decide_eq_true_eq]
      norm_num
      linarith
    simp [hg, hl]

/-- Witness for C1 at concrete inputs: frequency `343.4`, obstacle size
`1`, temperature `20` give size ratio exactly `1`, classified
`TRANSITIONAL`. -/
theorem calculateMetrics_classification_witness :
    (calculateMetrics ⟨343.4, 1, 20⟩).ratio = .fin 1 ∧
    (calculateMetrics ⟨343.4, 1, 20⟩).behavior = .TRANSITIONAL := by
  have h : (calculateMetrics ⟨343.4, 1, 20⟩).ratio = .fin 1 := by
    show jdiv (.fin 1) (jdiv (.fin (calculateSpeedOfSound 20)) (.fin (343.4:ℚ))) = .fin 1
    norm_num [calculateSpeedOfSound, jdiv]
  exact ⟨h, (calculateMetrics_classification ⟨343.4, 1, 20⟩).2.1 h⟩

/-- C2: for every input with positive frequency, `calculateMetrics` returns
a speed of sound of exactly `331.4 + 0.6 * temperature`, a wavelength of
exactly `speed / frequency`, and a ratio of exactly
`obstacleSize / wavelength` (the JavaScript division of the code). -/
theorem calculateMetrics_formulas (p : SimulationParams)
    (hf : 0 < p.frequency) :
    (calculateMetrics p).speedOfSound = .fin (331.4 + 0.6 * p.temperature)
    ∧ (calculateMetrics p).wavelength =
        .fin ((331.4 + 0.6 * p.temperature) / p.frequency)
    ∧ (calculateMetrics p).ratio =
        jdiv (.fin p.obstacleSize) (calculateMetrics p).wavelength := by
  refine ⟨rfl, ?_, rfl⟩
  show jdiv (.fin (calculateSpeedOfSound p.temperature)) (.fin p.frequency) = _
  rw [jdiv]
  simp [hf.ne', calculateSpeedOfSound]

/-- Witness for C2 at frequency `343`, obstacle size `1`, temperature
`20`. -/
theorem calculateMetrics_formulas_witness :
    (calculateMetrics ⟨343, 1, 20⟩).speedOfSound = .fin (331.4 + 0.6 * 20)
    ∧ (calculateMetrics ⟨343, 1, 20⟩).wavelength =
        .fin ((331.4 + 0.6 * 20) / 343)
    ∧ (calculateMetrics ⟨343, 1, 20⟩).ratio =
        jdiv (.fin 1) (calculateMetrics ⟨343, 1, 20⟩).wavelength :=
  calculateMetrics_formulas ⟨343, 1, 20⟩ (by norm_num)

/-- C9: for a fixed temperature with positive speed of sound and a fixed
obstacle size, the wavelength returned by `calculateMetrics` is strictly
decreasing in the frequency. -/
theorem wavelength_strict_decreasing (t os f1 f2 : ℚ)
    (hs : 0 < 331.4 + 0.6 * t) (h1 : 0 < f1) (h12 : f1 < f2) :
    jlt (calculateMetrics ⟨f2, os, t⟩).wavelength
        (calculateMetrics ⟨f1, os, t⟩).wavelength = true := by
  have hs' : 0 < calculateSpeedOfSound t := by
    simpa [calculateSpeedOfSound] using hs
  have h2 : (0:ℚ) < f2 := lt_trans h1 h12
  have hw : calculateSpeedOfSound t / f2 < calculateSpeedOfSound t / f1 :=
    div_lt_div_of_pos_left hs' h1 h12
  show jlt (jdiv (.fin (calculateSpeedOfSound t)) (.fin f2))
      (jdiv (.fin (calculateSpeedOfSound t)) (.fin f1)) = true
  rw [jdiv, jdiv]
  simp [h1.ne', h2.ne', jlt, hw]

/-- Witness for C9 at temperature `20`, obstacle size `1`, frequencies
`343 < 686`. -/
theorem wavelength_strict_decreasing_witness :
    jlt (calculateMetrics ⟨686, 1, 20⟩).wavelength
        (calculateMetrics ⟨343, 1, 20⟩).wavelength = true :=
  wavelength_strict_decreasing 20 1 343 686 (by norm_num) (by norm_num)
    (by norm_num)

/-- C10: `calculateMetrics` is total — the Lean embedding is a total
computable function, mirroring that the JavaScript function performs only
arithmetic and comparisons and cannot throw — and the returned behavior
field is always exactly one of the three classification values, for every
input including zero and negative frequencies. -/
theorem calculateMetrics_total (p : SimulationParams) :
    (calculateMetrics p).behavior = .REFLECTING
    ∨ (calculateMetrics p).behavior = .DIFFRACTING
    ∨ (calculateMetrics p).behavior = .TRANSITIONAL := by
  cases h : (calculateMetrics p).behavior
  · exact Or.inl rfl
  · exact Or.inr (Or.inl rfl)
  · exact Or.inr (Or.inr rfl)

/-- Witness for C10 at a concrete input. -/
theorem calculateMetrics_total_witness :
    (calculateMetrics ⟨343, 1, 20⟩).behavior = .REFLECTING
    ∨ (calculateMetrics ⟨343, 1, 20⟩).behavior = .DIFFRACTING
    ∨ (calculateMetrics ⟨343, 1, 20⟩).behavior = .TRANSITIONAL :=
  calculateMetrics_total ⟨343, 1, 20⟩

/-! ## The per-frame renderer model (`render` in `src/components/WaveCanvas.tsx`)

One invocation of the `render` callback is modelled by `renderTick`.  The
model keeps the quantities the verified claims are about: the radii passed
to `ctx.arc` for incident and reflected wavefronts, the diffraction blend
factor, whether the reflected-wave branch is taken, the reflection opacity
scale, whether the callback issued any drawing command, whether it
scheduled the next frame via `requestAnimationFrame`, and the animation
counter `time` after the call.  The two `for` loops over wave radii share
the identical header `for (let r = phaseOffset; r < maxRadius; r += wavelengthPx)`;
they are modelled by `waveLoop`, made total with a fuel argument whose
exhaustion (second component `false`) marks a loop that did not terminate
within the given fuel.  `maxRadius = Math.hypot(width, height)` is an
irrational square root in general, so it is passed as a parameter; every
theorem below holds for all values of that parameter. -/

/-- `PIXELS_PER_METER = Math.min(60, height / 6)`. -/
def PIXELS_PER_METER (height : ℚ) : ℚ := min 60 (height / 6)

/-- `waveSpeedPx = 2`. -/
def waveSpeedPx : ℚ := 2

/-- `wavelengthPx = metrics.wavelength * PIXELS_PER_METER`. -/
def wavelengthPx (m : AcousticMetrics) (ppm : ℚ) : JSNum :=
  jmul m.wavelength (.fin ppm)

/-- `phaseOffset = (time * waveSpeedPx) % wavelengthPx`. -/
def phaseOffset (time : ℕ) (wpx : JSNum) : JSNum :=
  jmod (.fin ((time : ℚ) * waveSpeedPx)) wpx

/-- The shared loop `for (let r = phaseOffset; r < maxRadius; r += wavelengthPx)`:
returns the radii for which the body runs, and whether the loop exited
within the given fuel (`false` = still running when the fuel ran out). -/
def waveLoop : ℕ → JSNum → JSNum → JSNum → List JSNum × Bool
  | 0, r, _, maxR => if jlt r maxR = true then ([r], false) else ([], true)
  | f + 1, r, wpx, maxR =>
      if jlt r maxR = true then
        let rest := waveLoop f (jadd r wpx) wpx maxR
        (r :: rest.1, rest.2)
      else ([], true)

/-- If the loop condition fails at entry, the loop exits at once with no
iterations, whatever the fuel. -/
lemma waveLoop_exit (fuel : ℕ) (r wpx maxR : JSNum)
    (h : jlt r maxR = false) : waveLoop fuel r wpx maxR = ([], true) := by
  cases fuel <;> simp [waveLoop, h]

/-- `diffractionFactor = Math.max(0, Math.min(1, 1.5 - metrics.ratio))`. -/
def diffractionFactor (ratio : JSNum) : JSNum :=
  jmax (.fin 0) (jmin (.fin 1) (jsub (.fin 1.5) ratio))

/-- The inputs of one `render` invocation: whether `canvas`, `container`
and `ctx` are all non-null, the container's client size, the captured
`time` counter, and the current props. -/
structure FrameIn where
  canvasPresent : Bool
  width : ℚ
  height : ℚ
  time : ℕ
  metrics : AcousticMetrics
  obstacleSize : ℚ
deriving DecidableEq

/-- The observable outcome of one `render` invocation. -/
structure FrameOut where
  issuedCommands : Bool
  incident : List JSNum
  incidentDone : Bool
  dfactor : JSNum
  reflectedPass : Bool
  reflectionOpacity : JSNum
  reflected : List JSNum
  scheduled : Bool
  timeAfter : ℕ
deriving DecidableEq

/-- One invocation of `render` from `WaveCanvas.tsx`.  If the null guard
fires, the callback returns before drawing and before scheduling anything.
Otherwise the background, grid, waves, shadow, obstacle and source are
drawn, `time` is incremented, and the next frame is scheduled.  If the
incident-wave loop never exits (fuel exhausted), nothing past it — in
particular `time++` and `requestAnimationFrame` — is reached.  The
reflected-wave loop has the identical header and therefore visits exactly
the radii of the incident loop. -/
def renderTick (fuel : ℕ) (inp : FrameIn) (maxRadius : ℚ) : FrameOut :=
  if inp.canvasPresent = false then
    { issuedCommands := false, incident := [], incidentDone := true,
      dfactor := .nan, reflectedPass := false, reflectionOpacity := .nan,
      reflected := [], scheduled := false, timeAfter := inp.time }
  else
    let ppm := PIXELS_PER_METER inp.height
    let wpx := wavelengthPx inp.metrics ppm
    let phase := phaseOffset inp.time wpx
    let dfac := diffractionFactor inp.metrics.ratio
    let loop := waveLoop fuel phase wpx (.fin maxRadius)
    if loop.2 = false then
      { issuedCommands := true, incident := loop.1, incidentDone := false,
        dfactor := dfac, reflectedPass := false, reflectionOpacity := .nan,
        reflected := [], scheduled := false, timeAfter := inp.time }
    else
      let pass := jgt inp.metrics.ratio (.fin 0.8)
      let distToObs := inp.width / 2 - inp.width * 0.15
      let refl :=
        if pass then
          loop.1.filterMap (fun r =>
            if jgt r (.fin distToObs) = true then
              (if jgt (jsub r (.fin distToObs)) (.fin 0) = true
               then some (jsub r (.fin distToObs)) else none)
            else none)
        else []
      { issuedCommands := true, incident := loop.1, incidentDone := true,
        dfactor := dfac, reflectedPass := pass,
        reflectionOpacity :=
          if pass then jmin (.fin 1) (jsub inp.metrics.ratio (.fin 0.6))
          else .nan,
        reflected := refl, scheduled := true, timeAfter := inp.time + 1 }

/-- Whether a frame left visible pixels: drawing commands were issued and
the backing canvas has positive area (a canvas of zero width or height has
no pixels, so commands issued against it paint nothing). -/
def paintsVisible (inp : FrameIn) (out : FrameOut) : Bool :=
  out.issuedCommands && decide (0 < inp.width) && decide (0 < inp.height)

/-- The spec's clamp function: `clamp(x, lo, hi)`, restricting `x` to the
interval `[lo, hi]`. -/
def specClamp (x lo hi : ℚ) : ℚ := max lo (min hi x)

/-! ## Theorems about the per-frame renderer -/

/-- C7: the diffraction blend factor computed each frame equals
`clamp(1.5 - sizeRatio, 0, 1)`; as a function of the size ratio it is
continuous and monotonically non-increasing, with value `0` at ratio `1.5`
and value `1` at ratio `0.5`. -/
theorem diffractionFactor_clamp :
    (∀ q : ℚ, diffractionFactor (.fin q) = .fin (specClamp (1.5 - q) 0 1))
    ∧ Continuous (fun q : ℚ => specClamp (1.5 - q) 0 1)
    ∧ Antitone (fun q : ℚ => specClamp (1.5 - q) 0 1)
    ∧ diffractionFactor (.fin 1.5) = .fin 0
    ∧ diffractionFactor (.fin 0.5) = .fin 1 := by
  refine ⟨fun q => rfl, ?_, ?_, ?_, ?_⟩
  · have hsub : Continuous fun q : ℚ => (1.5:ℚ) - q :=
      continuous_const.sub continuous_id
    simpa [specClamp] using continuous_const.max (continuous_const.min hsub)
  · intro a b hab
    simp only [specClamp]
    exact max_le_max le_rfl (min_le_min le_rfl (by linarith))
  · norm_num [diffractionFactor, jsub, jmin, jmax]
  · norm_num [diffractionFactor, jsub, jmin, jmax]

/-- Witness for C7 at size ratio `1/2`: the blend factor equals the clamp
there (value `1`). -/
theorem diffractionFactor_clamp_witness :
    diffractionFactor (.fin (1/2)) = .fin (specClamp (1.5 - 1/2) 0 1) :=
  diffractionFactor_clamp.1 (1/2)

/-- C8: the reflected-wavefront pass runs on a completed frame exactly when
the size ratio compares greater than `0.8`; a nonempty list of reflected
arcs implies that guard held; and whenever the pass runs, the code's
opacity scale `Math.min(1, ratio - 0.6)` coincides with
`clamp(ratio - 0.6, 0, 1)`. -/
theorem reflected_pass_guard (fuel : ℕ) (inp : FrameIn) (maxR : ℚ) :
    (inp.canvasPresent = true →
      (renderTick fuel inp maxR).incidentDone = true →
      (renderTick fuel inp maxR).reflectedPass = jgt inp.metrics.ratio (.fin 0.8))
    ∧ ((renderTick fuel inp maxR).reflected ≠ [] →
        jgt inp.metrics.ratio (.fin 0.8) = true)
    ∧ ((renderTick fuel inp maxR).reflectedPass = true →
        (renderTick fuel inp maxR).reflectionOpacity =
          jmax (.fin 0) (jmin (.fin 1) (jsub inp.metrics.ratio (.fin 0.6)))) := by
  have hclamp : ∀ r : JSNum, jgt r (.fin 0.8) = true →
      jmin (.fin 1) (jsub r (.fin 0.6)) =
        jmax (.fin 0) (jmin (.fin 1) (jsub r (.fin 0.6))) := by
    intro r hr
    match r with
    | .nan => simp [jgt, jlt] at hr
    | .ninf => simp [jgt, jlt] at hr
    | .inf => norm_num [jsub, jmin, jmax]
    | .fin q =>
        simp only [jgt, jlt, decide_eq_true_eq] at hr
        have h1 : (0:ℚ) ≤ min 1 (q - 0.6) := by
          have : (0:ℚ) ≤ q - 0.6 := by norm_num; linarith [hr]
          positivity
        simp only [jsub, jmin, jmax]
        rw [max_eq_right h1]
  by_cases hc : inp.canvasPresent = false
  · refine ⟨fun h _ => ?_, fun h => ?_, fun h => ?_⟩ <;>
      simp_all [renderTick]
  · have hc' : inp.canvasPresent = true := by simpa using hc
    by_cases hloop : (waveLoop fuel
        (phaseOffset inp.time (wavelengthPx inp.metrics (PIXELS_PER_METER inp.height)))
        (wavelengthPx inp.metrics (PIXELS_PER_METER inp.height)) (.fin maxR)).2 = false
    · refine ⟨fun _ h => ?_, fun h => ?_, fun h => ?_⟩ <;>
        simp_all [renderTick]
    · by_cases hpass : jgt inp.metrics.ratio (.fin 0.8) = true
      · refine ⟨fun _ _ => ?_, fun _ => hpass, fun _ => ?_⟩
        · simp [renderTick, hc', hloop, hpass]
        · simp only [renderTick, hc', hloop, hpass]
          simp only [Bool.false_eq_true, if_false, if_true]
          exact hclamp _ hpass
      · have hpass' : jgt inp.metrics.ratio (.fin 0.8) = false := by
          simpa using hpass
        refine ⟨fun _ _ => ?_, fun h => ?_, fun h => ?_⟩ <;>
          simp_all [renderTick]

/-- Witness for C8 on a concrete completed frame with size ratio exactly
`1` (> 0.8): the reflected pass runs and its opacity scale equals the
clamped form. -/
theorem reflected_pass_guard_witness :
    (renderTick 2 ⟨true, 800, 600, 0, calculateMetrics ⟨343.4, 1, 20⟩, 1⟩ 100).reflectionOpacity
      = jmax (.fin 0) (jmin (.fin 1)
          (jsub (calculateMetrics ⟨343.4, 1, 20⟩).ratio (.fin 0.6))) := by
  have hpass : (renderTick 2 ⟨true, 800, 600, 0,
      calculateMetrics ⟨343.4, 1, 20⟩, 1⟩ 100).reflectedPass = true := by
    norm_num [renderTick, calculateMetrics, calculateSpeedOfSound, jdiv,
      PIXELS_PER_METER, wavelengthPx, phaseOffset, waveSpeedPx, jmul, jmod,
      jgt, jlt, jadd, waveLoop, qtrunc]
  exact (reflected_pass_guard 2
    ⟨true, 800, 600, 0, calculateMetrics ⟨343.4, 1, 20⟩, 1⟩ 100).2.2 hpass

/-- The loop started at `-Infinity` with step `-Infinity` never exits:
the loop variable stays `-Infinity`, which is below every finite bound. -/
lemma waveLoop_ninf_ninf (f : ℕ) (maxR : ℚ) :
    (waveLoop f .ninf .ninf (.fin maxR)).2 = false := by
  induction f with
  | zero => simp [waveLoop, jlt]
  | succ f ih => simp [waveLoop, jlt, jadd, ih]

/-- The loop started at `-Infinity` with step `-Infinity` passes the
radius `-Infinity` to the body (and hence to `ctx.arc`). -/
lemma waveLoop_ninf_head (f : ℕ) (maxR : ℚ) :
    JSNum.ninf ∈ (waveLoop f .ninf .ninf (.fin maxR)).1 := by
  cases f <;> simp [waveLoop, jlt]

/-- The loop started at a finite value below the bound with step
`-Infinity` never exits. -/
lemma waveLoop_fin_ninf (f : ℕ) (a maxR : ℚ) (hlt : a < maxR) :
    (waveLoop f (.fin a) .ninf (.fin maxR)).2 = false := by
  cases f with
  | zero => simp [waveLoop, jlt, hlt]
  | succ f => simp [waveLoop, jlt, hlt, jadd, waveLoop_ninf_ninf]

/-- C5 counterexample: at frequency `0` (temperature `20`, obstacle size
`1`) the wavelength is non-finite (`Infinity`), yet on the frame with
`time = 10`, surface `800 × 600` and diagonal `1000` the renderer does draw
wave geometry: one incident arc of radius `20` is passed to `ctx.arc`.  The
claim that no wave geometry is drawn on such a frame is therefore false. -/
theorem render_nonfinite_wavelength_cex :
    jsFinite (calculateMetrics ⟨0, 1, 20⟩).wavelength = false
    ∧ (renderTick 2 ⟨true, 800, 600, 10, calculateMetrics ⟨0, 1, 20⟩, 1⟩ 1000).incident
        = [.fin 20] := by
  constructor <;>
    norm_num [renderTick, calculateMetrics, calculateSpeedOfSound, jdiv,
      PIXELS_PER_METER, wavelengthPx, phaseOffset, waveSpeedPx, jmul, jmod,
      jgt, jlt, jadd, waveLoop, qtrunc, jsFinite]

/-- C5 amended: on a frame whose metrics come from `calculateMetrics` and
whose wavelength is non-finite, the renderer does not always skip wave
geometry:
a `NaN` wavelength draws no wave geometry and the loop continues;
a `+Infinity` wavelength draws exactly one incident arc, with the finite
radius `phaseOffset = time * 2`, when that is below the surface diagonal
(none otherwise) and no reflected arcs — so in this case no non-finite
radius reaches a drawing primitive — and the loop continues;
a `-Infinity` wavelength with `time * 2` below the diagonal makes the
incident loop diverge: the non-finite radius `-Infinity` is passed to the
drawing primitive on every iteration after the first, the frame never
completes, and nothing further is scheduled; with `time * 2` at or above
the diagonal it draws nothing and the loop continues. -/
theorem render_nonfinite_wavelength (p : SimulationParams) (t : ℕ)
    (w h os maxR : ℚ) (fuel : ℕ) (hh : 0 < h) (hfuel : 0 < fuel) :
    ((calculateMetrics p).wavelength = .nan →
      (renderTick fuel ⟨true, w, h, t, calculateMetrics p, os⟩ maxR).incident = []
      ∧ (renderTick fuel ⟨true, w, h, t, calculateMetrics p, os⟩ maxR).reflected = []
      ∧ (renderTick fuel ⟨true, w, h, t, calculateMetrics p, os⟩ maxR).scheduled = true)
    ∧ ((calculateMetrics p).wavelength = .inf →
      ((t:ℚ) * 2 < maxR →
        (renderTick fuel ⟨true, w, h, t, calculateMetrics p, os⟩ maxR).incident
          = [.fin ((t:ℚ) * 2)])
      ∧ (maxR ≤ (t:ℚ) * 2 →
        (renderTick fuel ⟨true, w, h, t, calculateMetrics p, os⟩ maxR).incident = [])
      ∧ (renderTick fuel ⟨true, w, h, t, calculateMetrics p, os⟩ maxR).reflected = []
      ∧ (renderTick fuel ⟨true, w, h, t, calculateMetrics p, os⟩ maxR).scheduled = true)
    ∧ ((calculateMetrics p).wavelength = .ninf →
      ((t:ℚ) * 2 < maxR →
        (renderTick fuel ⟨true, w, h, t, calculateMetrics p, os⟩ maxR).scheduled = false
        ∧ JSNum.ninf ∈
          (renderTick fuel ⟨true, w, h, t, calculateMetrics p, os⟩ maxR).incident)
      ∧ (maxR ≤ (t:ℚ) * 2 →
        (renderTick fuel ⟨true, w, h, t, calculateMetrics p, os⟩ maxR).incident = []
        ∧ (renderTick fuel ⟨true, w, h, t, calculateMetrics p, os⟩ maxR).scheduled = true)) := by
  have hppm : 0 < PIXELS_PER_METER h := lt_min (by norm_num) (by positivity)
  have hppm0 : PIXELS_PER_METER h ≠ 0 := ne_of_gt hppm
  refine ⟨fun hw => ?_, fun hw => ?_, fun hw => ?_⟩
  · have hratio : (calculateMetrics p).ratio = .nan := by
      show jdiv (.fin p.obstacleSize) (calculateMetrics p).wavelength = .nan
      rw [hw]
      rfl
    have hwpx : wavelengthPx (calculateMetrics p) (PIXELS_PER_METER h) = .nan := by
      simp [wavelengthPx, hw, jmul]
    have hnan : jlt JSNum.nan (.fin maxR) = false := rfl
    refine ⟨?_, ?_, ?_⟩ <;>
      simp [renderTick, hwpx, phaseOffset, jmod, waveLoop_exit _ _ _ _ hnan,
        hratio, jgt, jlt]
  · have hratio : (calculateMetrics p).ratio = .fin 0 := by
      show jdiv (.fin p.obstacleSize) (calculateMetrics p).wavelength = .fin 0
      rw [hw]
      rfl
    have hwpx : wavelengthPx (calculateMetrics p) (PIXELS_PER_METER h) = .inf := by
      simp [wavelengthPx, hw, jmul, hppm0, hppm]
    have hpass : jgt (JSNum.fin 0) (.fin 0.8) = false := by
      norm_num [jgt, jlt]
    have hinf : jlt JSNum.inf (.fin maxR) = false := rfl
    obtain ⟨f, rfl⟩ : ∃ f, fuel = f + 1 := ⟨fuel - 1, by omega⟩
    refine ⟨fun hlt => ?_, fun hge => ?_, ?_, ?_⟩
    · have hjlt : jlt (.fin ((t:ℚ) * 2)) (.fin maxR) = true := by
        simp [jlt]; exact hlt
      simp [renderTick, hwpx, phaseOffset, waveSpeedPx, jmod, waveLoop, hjlt,
        jadd, waveLoop_exit _ _ _ _ hinf, hratio, hpass]
    · have hjlt : jlt (.fin ((t:ℚ) * 2)) (.fin maxR) = false := by
        simp [jlt]; exact hge
      simp [renderTick, hwpx, phaseOffset, waveSpeedPx, jmod,
        waveLoop_exit _ _ _ _ hjlt, hratio, hpass]
    · by_cases hlt : (t:ℚ) * 2 < maxR
      · have hjlt : jlt (.fin ((t:ℚ) * 2)) (.fin maxR) = true := by
          simp [jlt]; exact hlt
        simp [renderTick, hwpx, phaseOffset, waveSpeedPx, jmod, waveLoop, hjlt,
          jadd, waveLoop_exit _ _ _ _ hinf, hratio, hpass]
      · have hjlt : jlt (.fin ((t:ℚ) * 2)) (.fin maxR) = false := by
          simp [jlt]; linarith
        simp [renderTick, hwpx, phaseOffset, waveSpeedPx, jmod,
          waveLoop_exit _ _ _ _ hjlt, hratio, hpass]
    · by_cases hlt : (t:ℚ) * 2 < maxR
      · have hjlt : jlt (.fin ((t:ℚ) * 2)) (.fin maxR) = true := by
          simp [jlt]; exact hlt
        simp [renderTick, hwpx, phaseOffset, waveSpeedPx, jmod, waveLoop, hjlt,
          jadd, waveLoop_exit _ _ _ _ hinf, hratio, hpass]
      · have hjlt : jlt (.fin ((t:ℚ) * 2)) (.fin maxR) = false := by
          simp [jlt]; linarith
        simp [renderTick, hwpx, phaseOffset, waveSpeedPx, jmod,
          waveLoop_exit _ _ _ _ hjlt, hratio, hpass]
  · have hratio : (calculateMetrics p).ratio = .fin 0 := by
      show jdiv (.fin p.obstacleSize) (calculateMetrics p).wavelength = .fin 0
      rw [hw]
      rfl
    have hwpx : wavelengthPx (calculateMetrics p) (PIXELS_PER_METER h) = .ninf := by
      simp [wavelengthPx, hw, jmul, hppm0, hppm]
    have hpass : jgt (JSNum.fin 0) (.fin 0.8) = false := by
      norm_num [jgt, jlt]
    refine ⟨fun hlt => ?_, fun hge => ?_⟩
    · obtain ⟨f, rfl⟩ : ∃ f, fuel = f + 1 := ⟨fuel - 1, by omega⟩
      have hjlt : jlt (.fin ((t:ℚ) * 2)) (.fin maxR) = true := by
        simp [jlt]; exact hlt
      have hloop : (waveLoop (f + 1) (.fin ((t:ℚ) * 2)) .ninf (.fin maxR)).2 = false :=
        waveLoop_fin_ninf (f + 1) _ maxR hlt
      have hmem : JSNum.ninf ∈
          (waveLoop (f + 1) (.fin ((t:ℚ) * 2)) .ninf (.fin maxR)).1 := by
        simp [waveLoop, hjlt, jadd]
        exact waveLoop_ninf_head f maxR
      constructor
      · simp [renderTick, hwpx, phaseOffset, waveSpeedPx, jmod, hloop]
      · simp only [renderTick, hwpx, phaseOffset, waveSpeedPx, jmod]
        simp [hloop]
        exact hmem
    · have hjlt : jlt (.fin ((t:ℚ) * 2)) (.fin maxR) = false := by
        simp [jlt]; exact hge
      simp [renderTick, hwpx, phaseOffset, waveSpeedPx, jmod,
        waveLoop_exit _ _ _ _ hjlt, hratio, hpass]

/-- Witness for the amended C5 at frequency `0`, temperature `20`: one
finite-radius arc is drawn and the loop stays scheduled. -/
theorem render_nonfinite_wavelength_witness :
    (renderTick 2 ⟨true, 800, 600, 10, calculateMetrics ⟨0, 1, 20⟩, 1⟩ 1000).incident
      = [.fin (((10:ℕ):ℚ) * 2)]
    ∧ (renderTick 2 ⟨true, 800, 600, 10, calculateMetrics ⟨0, 1, 20⟩, 1⟩ 1000).scheduled
      = true := by
  have hw : (calculateMetrics ⟨0, 1, 20⟩).wavelength = .inf := by
    norm_num [calculateMetrics, calculateSpeedOfSound, jdiv]
  have h := render_nonfinite_wavelength ⟨0, 1, 20⟩ 10 800 600 1 1000 2
    (by norm_num) (by norm_num)
  exact ⟨(h.2.1 hw).1 (by norm_num), (h.2.1 hw).2.2.2⟩

/-- C6 counterexample: on a tick where the surface is missing
(`canvas`, `container` or `ctx` null), the `render` callback returns
early — it draws nothing, but it also does NOT call
`requestAnimationFrame`, so the loop is not kept scheduled, contrary to
the claim.  (In the mounted component this branch is unreachable: the
effect returns before starting the loop when the surface is missing, so
the captured references inside `render` are always non-null.) -/
theorem render_missing_surface_cex :
    (renderTick 2 ⟨false, 800, 600, 0, calculateMetrics ⟨343, 1, 20⟩, 1⟩ 1000).scheduled
      = false
    ∧ (renderTick 2 ⟨false, 800, 600, 0, calculateMetrics ⟨343, 1, 20⟩, 1⟩ 1000).issuedCommands
      = false := by
  exact ⟨rfl, rfl⟩

/-- C6 amended: a zero-sized (0 × 0, i.e. unattached-layout) surface is
non-fatal: the callback paints no visible pixels (zero-area canvas) and
draws no wave arcs, yet increments the clock and keeps the loop scheduled,
so it draws again once the surface has positive area (any frame past the
null guard issues its drawing commands).  A missing surface, by contrast,
makes the callback return without scheduling the next frame — in the real
component that branch is unreachable, because with a missing surface the
effect returns before the loop ever starts. -/
theorem render_zero_size_surface (fuel t : ℕ) (m : AcousticMetrics)
    (os maxR : ℚ) (inp : FrameIn) :
    (paintsVisible ⟨true, 0, 0, t, m, os⟩
        (renderTick fuel ⟨true, 0, 0, t, m, os⟩ maxR) = false)
    ∧ (renderTick fuel ⟨true, 0, 0, t, m, os⟩ maxR).incident = []
    ∧ (renderTick fuel ⟨true, 0, 0, t, m, os⟩ maxR).scheduled = true
    ∧ (renderTick fuel ⟨true, 0, 0, t, m, os⟩ maxR).timeAfter = t + 1
    ∧ (inp.canvasPresent = false →
        (renderTick fuel inp maxR).issuedCommands = false
        ∧ (renderTick fuel inp maxR).scheduled = false)
    ∧ (inp.canvasPresent = true →
        (renderTick fuel inp maxR).issuedCommands = true) := by
  have hwpx : wavelengthPx m (PIXELS_PER_METER 0) = jmul m.wavelength (.fin 0) := by
    norm_num [wavelengthPx, PIXELS_PER_METER]
  have hphase' : phaseOffset t (jmul m.wavelength (.fin 0)) = .nan := by
    cases hw : m.wavelength <;> simp [phaseOffset, jmul, jmod]
  have hnan : jlt JSNum.nan (.fin maxR) = false := rfl
  have hmain : ∀ out : FrameOut,
      out = renderTick fuel ⟨true, 0, 0, t, m, os⟩ maxR →
      out.incident = [] ∧ out.scheduled = true ∧ out.issuedCommands = true
      ∧ out.timeAfter = t + 1 := by
    intro out hout
    subst hout
    by_cases hp : jgt m.ratio (.fin 0.8) = true <;>
      simp [renderTick, hwpx, hphase', waveLoop_exit _ _ _ _ hnan, hp]
  obtain ⟨h1, h2, h3, h4⟩ := hmain _ rfl
  refine ⟨?_, h1, h2, h4, fun hc => ?_, fun hc => ?_⟩
  · simp [paintsVisible]
  · constructor <;> simp [renderTick, hc]
  · by_cases hl : (waveLoop fuel
        (phaseOffset inp.time (wavelengthPx inp.metrics (PIXELS_PER_METER inp.height)))
        (wavelengthPx inp.metrics (PIXELS_PER_METER inp.height)) (.fin maxR)).2 = false <;>
      simp [renderTick, hc, hl]

/-- Witness for the amended C6: concrete zero-size frame and concrete
missing-surface frame. -/
theorem render_zero_size_surface_witness :
    (renderTick 2 ⟨true, 0, 0, 5, calculateMetrics ⟨343, 1, 20⟩, 1⟩ 0).scheduled = true
    ∧ (renderTick 2 ⟨false, 800, 600, 5, calculateMetrics ⟨343, 1, 20⟩, 1⟩ 1000).scheduled
      = false := by
  have h := render_zero_size_surface 2 5 (calculateMetrics ⟨343, 1, 20⟩) 1 0
    ⟨false, 800, 600, 5, calculateMetrics ⟨343, 1, 20⟩, 1⟩
  have h' := render_zero_size_surface 2 5 (calculateMetrics ⟨343, 1, 20⟩) 1 1000
    ⟨false, 800, 600, 5, calculateMetrics ⟨343, 1, 20⟩, 1⟩
  exact ⟨h.2.2.1, (h'.2.2.2.2.1 rfl).2⟩

/-! ## The renderer lifecycle model (`WaveCanvas` effect in
`src/components/WaveCanvas.tsx`)

The effect hook has the dependency list `[frequency, obstacleSize,
metrics]`.  Its body captures the surface references, declares
`let animationFrameId` and `let time = 0`, calls `render()` once
synchronously, and returns a cleanup that calls
`cancelAnimationFrame(animationFrameId)`.  `render` draws a frame,
increments `time` and schedules itself via `requestAnimationFrame`.

The host behaviour is modelled by a step function over events:
`mount` runs the effect body (if the surface is missing the body returns
before starting the loop); `fire` is the scheduler invoking the pending
animation-frame callback; `setProps` is a React re-render, which re-runs
the effect — cleanup (cancel) first, then a fresh body with `time = 0` —
exactly when the new dependency values differ (the `metrics` dependency
is a memo recomputed per parameter change, so value inequality coincides
with the reference inequality React tests); `unmount` runs the cleanup.
Frames are modelled as atomic (the per-frame detail lives in
`renderTick`); `Phase.running t deps` means the effect is active, the
`time` variable holds `t`, and exactly one animation-frame callback is
pending — the loop's standing invariant outside the synchronous body of
`render`. -/

/-- The props of `WaveCanvas`, which are also the effect dependencies. -/
structure Props where
  frequency : ℚ
  obstacleSize : ℚ
  metrics : AcousticMetrics
deriving DecidableEq

/-- Lifecycle phase of the `WaveCanvas` effect. -/
inductive Phase where
  | unmounted
  | mountedNoSurface (deps : Props)
  | running (time : ℕ) (deps : Props)
deriving DecidableEq

/-- Component state plus the cumulative number of frames ever drawn
(host-level observation, not a program variable). -/
structure CompState where
  phase : Phase
  totalFrames : ℕ
deriving DecidableEq

/-- Host events driving the component. -/
inductive HostEvent where
  | mount (surfaceOk : Bool) (p : Props)
  | fire
  | setProps (p : Props)
  | unmount
deriving DecidableEq

/-- Run the effect body: `time = 0`, one synchronous `render()` (drawing a
frame, leaving `time = 1`, one callback pending). -/
def startLoop (p : Props) (frames : ℕ) : CompState :=
  ⟨.running 1 p, frames + 1⟩

/-- One host event. -/
def step (s : CompState) : HostEvent → CompState
  | .mount ok p => if ok then startLoop p s.totalFrames
      else ⟨.mountedNoSurface p, s.totalFrames⟩
  | .fire =>
      match s.phase with
      | .running t p => ⟨.running (t + 1) p, s.totalFrames + 1⟩
      | _ => s
  | .setProps p' =>
      match s.phase with
      | .running _ p => if p' = p then s else startLoop p' s.totalFrames
      | .mountedNoSurface _ => ⟨.mountedNoSurface p', s.totalFrames⟩
      | .unmounted => s
  | .unmount => ⟨.unmounted, s.totalFrames⟩

/-- Run a list of host events. -/
def run (s : CompState) : List HostEvent → CompState
  | [] => s
  | e :: es => run (step s e) es

/-- The initial host state: nothing mounted, nothing drawn. -/
def init : CompState := ⟨.unmounted, 0⟩

/-- The renderer's `time` counter (0 when no loop is active). -/
def tickOf : CompState → ℕ
  | ⟨.running t _, _⟩ => t
  | _ => 0

/-- Whether an animation-frame callback is pending. -/
def pendingOf : CompState → Bool
  | ⟨.running _ _, _⟩ => true
  | _ => false

/-! ## Theorems about the renderer lifecycle -/

/-- C3 counterexample: changing the frequency prop while the surface stays
attached DOES reset the animation clock.  After mounting and two scheduler
ticks the clock reads `3`; one `setProps` with a different frequency later
it reads `1` (the effect re-ran with `time = 0` and one synchronous
render), not the `3` (or more) the claim requires. -/
theorem tick_reset_on_param_change_cex :
    tickOf (run init [.mount true ⟨343, 1, calculateMetrics ⟨343, 1, 20⟩⟩,
      .fire, .fire]) = 3
    ∧ tickOf (run init [.mount true ⟨343, 1, calculateMetrics ⟨343, 1, 20⟩⟩,
      .fire, .fire,
      .setProps ⟨686, 1, calculateMetrics ⟨686, 1, 20⟩⟩]) = 1 := by
  constructor
  · rfl
  · have hne : (⟨686, 1, calculateMetrics ⟨686, 1, 20⟩⟩ : Props) ≠
        ⟨343, 1, calculateMetrics ⟨343, 1, 20⟩⟩ := by
      intro hcontra
      have := congrArg Props.frequency hcontra
      norm_num at this
    simp [run, step, init, startLoop, tickOf, hne]

/-- C3 amended: the tick counter is reset (to `0`, then advanced to `1` by
the synchronous first render of the fresh effect) whenever a props update
changes any effect dependency — frequency, obstacle size, or the metrics
object — and likewise when the surface is torn down and recreated; it is
preserved only by props updates that leave every dependency unchanged, and
advances by one on each scheduler tick. -/
theorem tick_reset_on_param_change (t frames : ℕ) (deps p' : Props) (n : ℕ) :
    (p' ≠ deps →
      step ⟨.running t deps, frames⟩ (.setProps p') = ⟨.running 1 p', frames + 1⟩)
    ∧ (p' = deps →
      step ⟨.running t deps, frames⟩ (.setProps p') = ⟨.running t deps, frames⟩)
    ∧ step ⟨.running t deps, frames⟩ .fire = ⟨.running (t + 1) deps, frames + 1⟩
    ∧ step ⟨.unmounted, n⟩ (.mount true p') = ⟨.running 1 p', n + 1⟩ := by
    refine ⟨fun hne => ?_, fun heq => ?_, rfl, rfl⟩
    · simp [step, startLoop, hne]
    · simp [step, heq]

/-- Witness for the amended C3 at concrete props differing in frequency. -/
theorem tick_reset_on_param_change_witness :
    step ⟨.running 3 ⟨343, 1, calculateMetrics ⟨343, 1, 20⟩⟩, 3⟩
      (.setProps ⟨686, 1, calculateMetrics ⟨686, 1, 20⟩⟩)
      = ⟨.running 1 ⟨686, 1, calculateMetrics ⟨686, 1, 20⟩⟩, 4⟩ := by
  have hne : (⟨686, 1, calculateMetrics ⟨686, 1, 20⟩⟩ : Props) ≠
      ⟨343, 1, calculateMetrics ⟨343, 1, 20⟩⟩ := by
    intro hcontra
    have := congrArg Props.frequency hcontra
    norm_num at this
  exact (tick_reset_on_param_change 3 3 ⟨343, 1, calculateMetrics ⟨343, 1, 20⟩⟩
    ⟨686, 1, calculateMetrics ⟨686, 1, 20⟩⟩ 0).1 hne

/-- After the cleanup has run, a scheduler tick changes nothing: the
pending callback was cancelled. -/
lemma run_fires_unmounted (n : ℕ) (evs : List HostEvent)
    (h : ∀ e ∈ evs, e = .fire) :
    run ⟨.unmounted, n⟩ evs = ⟨.unmounted, n⟩ := by
  induction evs with
  | nil => rfl
  | cons e es ih =>
      have he : e = .fire := h e (List.mem_cons_self e es)
      subst he
      show run (step ⟨.unmounted, n⟩ .fire) es = _
      exact ih fun e hmem => h e (List.mem_cons_of_mem _ hmem)

/-- C4: mounting (starting the render loop) and immediately stopping it
draws at most one frame — exactly one when the surface was present, zero
otherwise — and leaves no animation-frame callback pending; moreover after
`stop()` returns from any state whatsoever, nothing is pending and any
number of later scheduler ticks draw nothing and schedule nothing: the
state after `stop()` is final. -/
theorem stop_is_final (ok : Bool) (p : Props) (evs : List HostEvent)
    (h : ∀ e ∈ evs, e = .fire) :
    (run init [.mount ok p, .unmount]).totalFrames ≤ 1
    ∧ pendingOf (run init [.mount ok p, .unmount]) = false
    ∧ run (run init [.mount ok p, .unmount]) evs
        = run init [.mount ok p, .unmount]
    ∧ (∀ s : CompState, pendingOf (step s .unmount) = false
        ∧ run (step s .unmount) evs = step s .unmount) := by
  have hval : run init [.mount ok p, .unmount]
      = ⟨.unmounted, if ok then 1 else 0⟩ := by
    cases ok <;> rfl
  rw [hval]
  refine ⟨?_, rfl, run_fires_unmounted _ evs h, fun s => ⟨rfl, ?_⟩⟩
  · cases ok <;> norm_num
  · exact run_fires_unmounted s.totalFrames evs h

/-- Witness for C4: start, stop, then two stray scheduler ticks. -/
theorem stop_is_final_witness :
    (run init [.mount true ⟨343, 1, calculateMetrics ⟨343, 1, 20⟩⟩,
        .unmount]).totalFrames ≤ 1
    ∧ run (run init [.mount true ⟨343, 1, calculateMetrics ⟨343, 1, 20⟩⟩,
        .unmount]) [.fire, .fire]
      = run init [.mount true ⟨343, 1, calculateMetrics ⟨343, 1, 20⟩⟩,
        .unmount] := by
  have h := stop_is_final true ⟨343, 1, calculateMetrics ⟨343, 1, 20⟩⟩
    [.fire, .fire] (by
      intro e hmem
      rcases List.mem_cons.mp hmem with h1 | h1
      · exact h1
      · rcases List.mem_cons.mp h1 with h2 | h2
        · exact h2
        · exact absurd h2 (List.not_mem_nil e))
  exact ⟨h.1, h.2.2.1⟩

end SoundSim
